import Mathlib

/-!
Verification development for the antimony model-exchange core: the data
model (documents, modules, symbols, events, replacement pairs), the
classifier, the document store with its format dispatch, and the
structural builders (stoichiometry matrix, reaction participants).

The repository under review exposes this core through extern
declarations; the executable behavior is modelled here from the
specification and from the contracts documented on those declarations.
-/

namespace Antimony

/-- Modelled from the spec: the declared sort of a symbol (the
implementation of the symbol table is in the external libantimony
library and absent from src).  Covers the kinds of section 3 of the
spec: Species, Formula, DNA operators and genes, Reaction, Interaction,
Event, Compartment, submodules and undetermined symbols. -/
inductive SymbolDecl where
  | Species
  | Formula
  | Operator
  | Gene
  | Reaction
  | Interaction
  | Event
  | Compartment
  | ModuleDef
  | UnknownDef
  deriving DecidableEq

/-- Modelled from the spec: the closed classification `return_type` of
src/antimony-sys/src/lib.rs (the query-surface symbol kinds).  Each
constructor corresponds to one C enum value, e.g. `Any` to `allSymbols`
(0), `SpeciesVariable` to `varSpecies` (11), `Gene` to `allGenes` (5)
and `Reaction` to `allReactions` (6). -/
inductive SymbolKind where
  | Any
  | Species
  | Formula
  | DNA
  | Operator
  | Gene
  | Reaction
  | Interaction
  | Event
  | Compartment
  | Unknown
  | SpeciesVariable
  | FormulaVariable
  | OperatorVariable
  | CompartmentVariable
  | SpeciesConstant
  | FormulaConstant
  | OperatorConstant
  | CompartmentConstant
  | Module
  | StrandExpanded
  | StrandModular
  | Unit
  | Deleted
  deriving DecidableEq

/-- Modelled from the spec: the `formula_type` classification of
src/antimony-sys/src/lib.rs, naming which equation slot is the defining
one for a symbol. -/
inductive FormulaKind where
  | Initial
  | Assignment
  | Rate
  | Kinetic
  | Trigger
  deriving DecidableEq

/-- Modelled from the spec: the Symbol record of section 3 (the symbol
table lives in the external library and is absent from src).  A symbol
has a name, an optional display name, a declared sort with a constness
flag, four independent equation slots (initial assignment, assignment
rule, rate rule, and the main equation: the kinetic rate of a reaction
or the trigger of an event), an optional compartment, and, for
reaction-sorted symbols, reactant and product participant lists each
paired with a stoichiometry. -/
structure Symbol where
  name : String
  displayName : String
  decl : SymbolDecl
  isConst : Bool
  initialAssignment : Option String
  assignmentRule : Option String
  rateRule : Option String
  mainEquation : Option String
  compartment : Option String
  reactants : List (String × Rat)
  products : List (String × Rat)
  deriving DecidableEq

/-- Modelled from the spec: the Event bundle of section 3: a trigger,
optional delay and priority equations, three optional boolean flags
with documented defaults (persistent false, value at time zero true,
fromTrigger true) and an ordered assignment list. -/
structure EventData where
  name : String
  trigger : String
  delay : Option String
  priority : Option String
  persistent : Option Bool
  valueAtT0 : Option Bool
  fromTrigger : Option Bool
  assignments : List (String × String)
  deriving DecidableEq

/-- Modelled from the spec: a Module of section 3: a named network
definition owning its symbol table, its events and its replacement
pairs (former name, replacement name) created by identity declarations
and interface binding. -/
structure Module where
  name : String
  interface : List String
  isMain : Bool
  symbols : List Symbol
  events : List EventData
  replacements : List (String × String)
  deriving DecidableEq

/-- Modelled from the spec: a Document of section 3, the immutable
result of one successful load, owning its module graph. -/
structure Document where
  modules : List Module
  deriving DecidableEq

/-- Modelled from the spec: the process-wide state of the document
store and the diagnostics sink (sections 4.1 and 4.6): the list of
loaded documents, the index of the active document, and the last
error message. -/
structure Registry where
  files : List Document
  active : Option Nat
  lastError : Option String
  deriving DecidableEq

/-- Modelled from the spec: records an error message in the
diagnostics sink (overwritten on every new failing operation,
section 7). -/
def setError (r : Registry) (msg : String) : Registry :=
  { r with lastError := some msg }

/-- Modelled from the spec: `getLastError` of src/antimony-sys/src/lib.rs;
reads the diagnostics sink. -/
def getLastError (r : Registry) : Option String :=
  r.lastError

/-- Modelled from the spec: `getNumFiles` of src/antimony-sys/src/lib.rs;
how many successfully loaded documents are stored. -/
def getNumFiles (r : Registry) : Nat :=
  r.files.length

/-- Modelled from the spec: the active document all queries run
against (section 2). -/
def activeDocument (r : Registry) : Option Document :=
  match r.active with
  | none => none
  | some i => r.files.get? i

/-- Modelled from the spec: finds a module by name in the active
document. -/
def lookupModule (r : Registry) (moduleName : String) : Option Module :=
  match activeDocument r with
  | none => none
  | some d => d.modules.find? (fun m => m.name == moduleName)

/-- Modelled from the spec: `checkModule` of src/antimony-sys/src/lib.rs;
true exactly when the named module exists in the active set. -/
def checkModule (r : Registry) (moduleName : String) : Bool :=
  (lookupModule r moduleName).isSome

/-- Modelled from the spec: `revertTo` of src/antimony-sys/src/lib.rs.
A negative or unknown index fails without side effects and returns
false; a valid index switches the active document and returns true. -/
def revertTo (r : Registry) (index : Int) : Bool × Registry :=
  if 0 ≤ index ∧ index.toNat < r.files.length then
    (true, { r with active := some index.toNat })
  else
    (false, r)

/-- Modelled from the spec: registration of a successfully parsed
document (section 4.1): it is appended to the store, becomes active,
and the diagnostics sink is left clear; its index is returned. -/
def registerDocument (r : Registry) (d : Document) : Int × Registry :=
  ((r.files.length : Int),
    { files := r.files ++ [d], active := some r.files.length, lastError := none })

/-- Modelled from the spec: `loadAntimonyString` of
src/antimony-sys/src/lib.rs.  The domain-text codec is an external
collaborator and is passed as a function; on a parse error the error is
saved, -1 is returned and no information is stored. -/
def loadAntimonyString (parseAntimony : String → Except String Document)
    (r : Registry) (model : String) : Int × Registry :=
  match parseAntimony model with
  | Except.ok d => registerDocument r d
  | Except.error e => (-1, setError r e)

/-- Modelled from the spec: `loadSBMLString` of
src/antimony-sys/src/lib.rs, with the XML-interchange codec passed as a
function. -/
def loadSBMLString (parseSBML : String → Except String Document)
    (r : Registry) (model : String) : Int × Registry :=
  match parseSBML model with
  | Except.ok d => registerDocument r d
  | Except.error e => (-1, setError r e)

/-- Modelled from the spec: `loadCellMLString` of
src/antimony-sys/src/lib.rs, with the XML-component codec passed as a
function. -/
def loadCellMLString (parseCellML : String → Except String Document)
    (r : Registry) (model : String) : Int × Registry :=
  match parseCellML model with
  | Except.ok d => registerDocument r d
  | Except.error e => (-1, setError r e)

/-- Modelled from the spec: `loadString` of src/antimony-sys/src/lib.rs
(untyped load, section 4.2): the XML-interchange codec is attempted
first, then the domain-text codec, then the XML-component codec; the
first success is registered; if every attempt fails, the domain-text
error is the one saved, -1 is returned and no information is stored. -/
def loadString (parseSBML parseAntimony parseCellML : String → Except String Document)
    (r : Registry) (model : String) : Int × Registry :=
  match parseSBML model with
  | Except.ok d => registerDocument r d
  | Except.error _ =>
    match parseAntimony model with
    | Except.ok d => registerDocument r d
    | Except.error eAntimony =>
      match parseCellML model with
      | Except.ok d => registerDocument r d
      | Except.error _ => (-1, setError r eAntimony)

/-- Modelled from the spec: `loadFile` of src/antimony-sys/src/lib.rs;
the file system is external, so reading the file is passed as a
function; a readable file is dispatched exactly as an untyped string
load. -/
def loadFile (readFileContent : String → Except String String)
    (parseSBML parseAntimony parseCellML : String → Except String Document)
    (r : Registry) (filename : String) : Int × Registry :=
  match readFileContent filename with
  | Except.error e => (-1, setError r e)
  | Except.ok content => loadString parseSBML parseAntimony parseCellML r content

/-- Modelled from the spec: which symbols each query kind matches
(the overlapping classification of src/antimony-sys/src/lib.rs,
e.g. a gene is matched by `allGenes`, `allDNA` and `allReactions`;
`varSpecies` matches the non-constant species). -/
def matchesKind (k : SymbolKind) (s : Symbol) : Bool :=
  match k with
  | SymbolKind.Any => true
  | SymbolKind.Species => decide (s.decl = SymbolDecl.Species)
  | SymbolKind.Formula => decide (s.decl = SymbolDecl.Formula)
  | SymbolKind.DNA => decide (s.decl = SymbolDecl.Operator) || decide (s.decl = SymbolDecl.Gene)
  | SymbolKind.Operator => decide (s.decl = SymbolDecl.Operator)
  | SymbolKind.Gene => decide (s.decl = SymbolDecl.Gene)
  | SymbolKind.Reaction => decide (s.decl = SymbolDecl.Reaction) || decide (s.decl = SymbolDecl.Gene)
  | SymbolKind.Interaction => decide (s.decl = SymbolDecl.Interaction)
  | SymbolKind.Event => decide (s.decl = SymbolDecl.Event)
  | SymbolKind.Compartment => decide (s.decl = SymbolDecl.Compartment)
  | SymbolKind.Unknown => decide (s.decl = SymbolDecl.UnknownDef)
  | SymbolKind.SpeciesVariable => decide (s.decl = SymbolDecl.Species) && !s.isConst
  | SymbolKind.FormulaVariable => decide (s.decl = SymbolDecl.Formula) && !s.isConst
  | SymbolKind.OperatorVariable => decide (s.decl = SymbolDecl.Operator) && !s.isConst
  | SymbolKind.CompartmentVariable => decide (s.decl = SymbolDecl.Compartment) && !s.isConst
  | SymbolKind.SpeciesConstant => decide (s.decl = SymbolDecl.Species) && s.isConst
  | SymbolKind.FormulaConstant => decide (s.decl = SymbolDecl.Formula) && s.isConst
  | SymbolKind.OperatorConstant => decide (s.decl = SymbolDecl.Operator) && s.isConst
  | SymbolKind.CompartmentConstant => decide (s.decl = SymbolDecl.Compartment) && s.isConst
  | SymbolKind.Module => decide (s.decl = SymbolDecl.ModuleDef)
  | SymbolKind.StrandExpanded => false
  | SymbolKind.StrandModular => false
  | SymbolKind.Unit => false
  | SymbolKind.Deleted => false

/-- Modelled from the spec: the symbols of a module matched by the
given kind, in declaration order. -/
def symbolsOfType (m : Module) (k : SymbolKind) : List Symbol :=
  m.symbols.filter (matchesKind k)

/-- Modelled from the spec: `getNumSymbolsOfType` of
src/antimony-sys/src/lib.rs. -/
def getNumSymbolsOfType (m : Module) (k : SymbolKind) : Nat :=
  (symbolsOfType m k).length

/-- Modelled from the spec: `getSymbolNamesOfType` of
src/antimony-sys/src/lib.rs. -/
def getSymbolNamesOfType (m : Module) (k : SymbolKind) : List String :=
  (symbolsOfType m k).map (fun s => s.name)

/-- Modelled from the spec: the most specific query kind for a symbol,
as documented on `getTypeOfSymbol` in src/antimony-sys/src/lib.rs: a
symbol declared a gene reports `allGenes`, never `allReactions`. -/
def symbolKindOf (s : Symbol) : SymbolKind :=
  match s.decl with
  | SymbolDecl.Species => SymbolKind.Species
  | SymbolDecl.Formula => SymbolKind.Formula
  | SymbolDecl.Operator => SymbolKind.Operator
  | SymbolDecl.Gene => SymbolKind.Gene
  | SymbolDecl.Reaction => SymbolKind.Reaction
  | SymbolDecl.Interaction => SymbolKind.Interaction
  | SymbolDecl.Event => SymbolKind.Event
  | SymbolDecl.Compartment => SymbolKind.Compartment
  | SymbolDecl.ModuleDef => SymbolKind.Module
  | SymbolDecl.UnknownDef => SymbolKind.Unknown

/-- Modelled from the spec: `getTypeOfSymbol` of
src/antimony-sys/src/lib.rs, at module level (an unknown name reports
the unknown kind). -/
def getTypeOfSymbol (m : Module) (symbolName : String) : SymbolKind :=
  match m.symbols.find? (fun x => x.name == symbolName) with
  | some s => symbolKindOf s
  | none => SymbolKind.Unknown

/-- Modelled from the spec: the classifier of the defining equation
slot, as documented on `getTypeOfEquationForSymbol` in
src/antimony-sys/src/lib.rs: reactions (genes included) are Kinetic,
events are Trigger, DNA elements that are not genes are Assignment,
and every other symbol is Rate when it carries a rate rule (with or
without an initial assignment), Assignment when it carries an
assignment rule, and Initial otherwise. -/
def formulaKindOf (s : Symbol) : FormulaKind :=
  if s.decl = SymbolDecl.Reaction ∨ s.decl = SymbolDecl.Gene then FormulaKind.Kinetic
  else if s.decl = SymbolDecl.Event then FormulaKind.Trigger
  else if s.decl = SymbolDecl.Operator then FormulaKind.Assignment
  else if s.rateRule.isSome then FormulaKind.Rate
  else if s.assignmentRule.isSome then FormulaKind.Assignment
  else FormulaKind.Initial

/-- Modelled from the spec: `getTypeOfEquationForSymbol` of
src/antimony-sys/src/lib.rs at module level (the default for an
unknown name is Initial). -/
def getTypeOfEquationForSymbol (m : Module) (symbolName : String) : FormulaKind :=
  match m.symbols.find? (fun x => x.name == symbolName) with
  | some s => formulaKindOf s
  | none => FormulaKind.Initial

/-- Modelled from the spec: the text of the equation associated with a
symbol, as documented on `getSymbolEquationsOfType` in
src/antimony-sys/src/lib.rs: the reaction rate for reactions and genes,
the trigger for events, nothing for interactions and modules, the
assignment rule for non-gene DNA elements, and the assignment rule or
initial assignment for everything else; an unset slot reads as the
empty string. -/
def symbolEquationText (s : Symbol) : String :=
  match s.decl with
  | SymbolDecl.Reaction => s.mainEquation.getD ""
  | SymbolDecl.Gene => s.mainEquation.getD ""
  | SymbolDecl.Event => s.mainEquation.getD ""
  | SymbolDecl.Interaction => ""
  | SymbolDecl.ModuleDef => ""
  | SymbolDecl.Operator => s.assignmentRule.getD ""
  | _ => (s.assignmentRule <|> s.initialAssignment).getD ""

/-- Modelled from the spec: `getNthSymbolEquationOfType` of
src/antimony-sys/src/lib.rs: a missing module or a missing ordinal
sets an error and yields an absent result; an existing symbol whose
slot is unset or not meaningful yields an empty string with no
error. -/
def getNthSymbolEquationOfType (r : Registry) (moduleName : String)
    (t : SymbolKind) (n : Nat) : Option String × Registry :=
  match lookupModule r moduleName with
  | none => (none, setError r "no such module")
  | some m =>
    match (symbolsOfType m t).get? n with
    | none => (none, setError r "no such symbol")
    | some s => (some (symbolEquationText s), r)

/-- Modelled from the spec: the reactions of a module (genes included),
in declaration order. -/
def reactionsOf (m : Module) : List Symbol :=
  symbolsOfType m SymbolKind.Reaction

/-- Modelled from the spec: `getNumReactions` of
src/antimony-sys/src/lib.rs: the number of reactions, genes
included. -/
def getNumReactions (m : Module) : Nat :=
  (reactionsOf m).length

/-- Modelled from the spec: `getNumReactants` of
src/antimony-sys/src/lib.rs: a missing module or reaction ordinal sets
an error and returns 0; an existing reaction with no reactants also
returns 0, with no error. -/
def getNumReactants (r : Registry) (moduleName : String) (rxn : Nat) :
    Nat × Registry :=
  match lookupModule r moduleName with
  | none => (0, setError r "no such module")
  | some m =>
    match (reactionsOf m).get? rxn with
    | none => (0, setError r "no such reaction")
    | some s => (s.reactants.length, r)

/-- Modelled from the spec: `getPersistenceForEvent` of
src/antimony-sys/src/lib.rs: the persistence flag of an event, default
false; the function is unable to signal an error, so a missing module
or event simply reads as false with the diagnostics sink untouched. -/
def getPersistenceForEvent (r : Registry) (moduleName : String) (event : Nat) :
    Bool × Registry :=
  match lookupModule r moduleName with
  | none => (false, r)
  | some m =>
    match m.events.get? event with
    | none => (false, r)
    | some e => (e.persistent.getD false, r)

/-- Modelled from the spec: `getT0ForEvent` of
src/antimony-sys/src/lib.rs: the value at time zero of the trigger,
default true; unable to signal an error, a missing module or event
simply reads as true with the diagnostics sink untouched. -/
def getT0ForEvent (r : Registry) (moduleName : String) (event : Nat) :
    Bool × Registry :=
  match lookupModule r moduleName with
  | none => (true, r)
  | some m =>
    match m.events.get? event with
    | none => (true, r)
    | some e => (e.valueAtT0.getD true, r)

/-- Modelled from the spec: `getFromTriggerForEvent` of
src/antimony-sys/src/lib.rs: the fromTrigger flag, default true;
unable to signal an error, a missing module or event simply reads as
true with the diagnostics sink untouched. -/
def getFromTriggerForEvent (r : Registry) (moduleName : String) (event : Nat) :
    Bool × Registry :=
  match lookupModule r moduleName with
  | none => (true, r)
  | some m =>
    match m.events.get? event with
    | none => (true, r)
    | some e => (e.fromTrigger.getD true, r)

/-- Modelled from the spec: the net stoichiometric coefficient of a
species in one reaction (product stoichiometry minus reactant
stoichiometry, section 4.5). -/
def netStoichiometry (rxn : Symbol) (species : String) : Rat :=
  ((rxn.products.filter (fun p => p.1 == species)).map (fun p => p.2)).sum
    - ((rxn.reactants.filter (fun p => p.1 == species)).map (fun p => p.2)).sum

/-- Modelled from the spec: `getStoichiometryMatrix` of
src/antimony-sys/src/lib.rs: one row per variable species, one column
per reaction, each entry the net stoichiometric coefficient of that
species in that reaction. -/
def getStoichiometryMatrix (m : Module) : List (List Rat) :=
  (symbolsOfType m SymbolKind.SpeciesVariable).map (fun sp =>
    (reactionsOf m).map (fun rxn => netStoichiometry rxn sp.name))

/-- Modelled from the spec: `getStoichiometryMatrixNumRows` of
src/antimony-sys/src/lib.rs: the number of variable species. -/
def getStoichiometryMatrixNumRows (m : Module) : Nat :=
  getNumSymbolsOfType m SymbolKind.SpeciesVariable

/-- Modelled from the spec: `getStoichiometryMatrixNumColumns` of
src/antimony-sys/src/lib.rs: the number of reactions. -/
def getStoichiometryMatrixNumColumns (m : Module) : Nat :=
  getNumReactions m

/-- Modelled from the spec: `getStoichiometryMatrixRowLabels` of
src/antimony-sys/src/lib.rs: exactly the variable species names. -/
def getStoichiometryMatrixRowLabels (m : Module) : List String :=
  getSymbolNamesOfType m SymbolKind.SpeciesVariable

/-- Modelled from the spec: `getStoichiometryMatrixColumnLabels` of
src/antimony-sys/src/lib.rs: exactly the reaction names. -/
def getStoichiometryMatrixColumnLabels (m : Module) : List String :=
  getSymbolNamesOfType m SymbolKind.Reaction

/-- Modelled from the spec: transitive canonicalization of a
replacement name (section 4.4): the replacement adjacency list is
followed from name to name until a name with no further replacement is
reached; the fuel bound makes the walk total. -/
def resolveReplacement : Nat → List (String × String) → String → String
  | 0, _, x => x
  | fuel + 1, pairs, x =>
    match pairs.lookup x with
    | some y => resolveReplacement fuel pairs y
    | none => x

/-- Modelled from the spec: the exposed replacement pairs of a module
(section 4.4): each recorded (former, replacement) pair is exposed with
its replacement resolved transitively to its canonical
representative. -/
def replacementPairs (pairs : List (String × String)) : List (String × String) :=
  pairs.map (fun p => (p.1, resolveReplacement (pairs.length + 1) pairs p.2))

/-- Modelled from the spec: `getNumReplacedSymbolNames` of
src/antimony-sys/src/lib.rs. -/
def getNumReplacedSymbolNames (m : Module) : Nat :=
  (replacementPairs m.replacements).length

/-- Modelled from the spec: `getNthReplacementSymbolPair` of
src/antimony-sys/src/lib.rs: the nth exposed (former, replacement)
pair. -/
def getNthReplacementSymbolPair (m : Module) (n : Nat) : Option (String × String) :=
  (replacementPairs m.replacements).get? n

/-- Modelled from the spec: `getNthFormerSymbolName` of
src/antimony-sys/src/lib.rs: the former symbol of the nth exposed
pair. -/
def getNthFormerSymbolName (m : Module) (n : Nat) : Option String :=
  ((replacementPairs m.replacements).get? n).map Prod.fst

/-- Modelled from the spec: `getNthReplacementSymbolName` of
src/antimony-sys/src/lib.rs: the replacement symbol of the nth exposed
pair. -/
def getNthReplacementSymbolName (m : Module) (n : Nat) : Option String :=
  ((replacementPairs m.replacements).get? n).map Prod.snd

/-- Modelled from the spec: the exposed replacement for a given former
symbol: the first exposed pair whose former symbol matches. -/
def getReplacementFor (m : Module) (former : String) : Option String :=
  (replacementPairs m.replacements).lookup former

/-- Modelled from the spec: defaulting of one symbol by
`addDefaultInitialValues` in src/antimony-sys/src/lib.rs: parameters
and compartments receive a default initial value of 1, species a
default of 0, and reactions and genes a default rate of 0; values
already present are kept. -/
def addDefaultsToSymbol (s : Symbol) : Symbol :=
  match s.decl with
  | SymbolDecl.Formula =>
    if s.initialAssignment.isSome then s else { s with initialAssignment := some "1" }
  | SymbolDecl.Compartment =>
    if s.initialAssignment.isSome then s else { s with initialAssignment := some "1" }
  | SymbolDecl.Species =>
    if s.initialAssignment.isSome then s else { s with initialAssignment := some "0" }
  | SymbolDecl.Reaction =>
    if s.mainEquation.isSome then s else { s with mainEquation := some "0" }
  | SymbolDecl.Gene =>
    if s.mainEquation.isSome then s else { s with mainEquation := some "0" }
  | _ => s

/-- Modelled from the spec: rewrites the named module of the active
document in place. -/
def updateActiveModule (r : Registry) (moduleName : String)
    (f : Module → Module) : Registry :=
  match r.active with
  | none => r
  | some i =>
    match r.files.get? i with
    | none => r
    | some d =>
      let updated : Document :=
        { modules := d.modules.map (fun m => if m.name == moduleName then f m else m) }
      { r with files := r.files.set i updated }

/-- Modelled from the spec: `addDefaultInitialValues` of
src/antimony-sys/src/lib.rs: returns true if no such module exists,
false otherwise (the inverted convention documented on the
declaration). -/
def addDefaultInitialValues (r : Registry) (moduleName : String) : Bool × Registry :=
  match lookupModule r moduleName with
  | none => (true, r)
  | some _ =>
    (false, updateActiveModule r moduleName (fun m =>
      { m with symbols := m.symbols.map addDefaultsToSymbol }))

/-- Fixture: a variable species with no equation in any slot. -/
def speciesS1 : Symbol :=
  { name := "S1", displayName := "species one", decl := SymbolDecl.Species,
    isConst := false, initialAssignment := none, assignmentRule := none,
    rateRule := none, mainEquation := none, compartment := none,
    reactants := [], products := [] }

/-- Fixture: a reaction with a kinetic law, no reactants and one
product. -/
def reactionJ0 : Symbol :=
  { name := "J0", displayName := "", decl := SymbolDecl.Reaction,
    isConst := false, initialAssignment := none, assignmentRule := none,
    rateRule := none, mainEquation := some "k1*S1", compartment := none,
    reactants := [], products := [("S1", 1)] }

/-- Fixture: a gene, structurally a reaction embeddable in a DNA
strand. -/
def geneG1 : Symbol :=
  { name := "g1", displayName := "", decl := SymbolDecl.Gene,
    isConst := false, initialAssignment := none, assignmentRule := none,
    rateRule := none, mainEquation := some "k2", compartment := none,
    reactants := [], products := [("S1", 1)] }

/-- Fixture: a DNA operator with no equation in any slot. -/
def operatorOp1 : Symbol :=
  { name := "op1", displayName := "", decl := SymbolDecl.Operator,
    isConst := false, initialAssignment := none, assignmentRule := none,
    rateRule := none, mainEquation := none, compartment := none,
    reactants := [], products := [] }

/-- Fixture: a DNA operator carrying a rate rule and no initial
assignment. -/
def operatorOp2 : Symbol :=
  { name := "op2", displayName := "", decl := SymbolDecl.Operator,
    isConst := false, initialAssignment := none, assignmentRule := none,
    rateRule := some "3", mainEquation := none, compartment := none,
    reactants := [], products := [] }

/-- Fixture: a module with a species, a reaction and a gene. -/
def sampleModule : Module :=
  { name := "M", interface := ["x", "y"], isMain := true,
    symbols := [speciesS1, reactionJ0, geneG1], events := [], replacements := [] }

/-- Fixture: a module holding the two operator fixtures. -/
def opModule : Module :=
  { name := "MOp", interface := [], isMain := false,
    symbols := [operatorOp1, operatorOp2], events := [], replacements := [] }

/-- Fixture: a module whose replacement declarations form the identity
chain A is B, B is C. -/
def chainModule : Module :=
  { name := "MC", interface := [], isMain := false,
    symbols := [], events := [], replacements := [("A", "B"), ("B", "C")] }

/-- Fixture: the registry before any load. -/
def emptyRegistry : Registry :=
  { files := [], active := none, lastError := none }

/-- Fixture: a registry with one loaded document holding the sample
module. -/
def sampleRegistry : Registry :=
  { files := [{ modules := [sampleModule] }], active := some 0, lastError := none }

/-- Fixture: the registry reached from the empty registry by one
successful typed load. -/
def loadedRegistry : Registry :=
  (loadAntimonyString (fun _ => Except.ok { modules := [sampleModule] })
    emptyRegistry "model text").2

theorem lookup_map_snd (f : String → String) (l : List (String × String)) (a : String) :
    (l.map (fun p => (p.1, f p.2))).lookup a = (l.lookup a).map f := by
  induction l with
  | nil => rfl
  | cons hd tl ih =>
    rcases hd with ⟨k, v⟩
    cases h : a == k with
    | true => simp [List.lookup, h]
    | false => simp [List.lookup, h, ih]

theorem lookup_none_not_fst (c : String) :
    ∀ l : List (String × String), l.lookup c = none → ∀ p ∈ l, p.1 ≠ c := by
  intro l
  induction l with
  | nil =>
    intro _ p hp
    cases hp
  | cons hd tl ih =>
    rcases hd with ⟨k, v⟩
    intro h p hp
    cases hq : c == k with
    | true => simp [List.lookup, hq] at h
    | false =>
      have h3 : tl.lookup c = none := by simpa [List.lookup, hq] using h
      rcases List.mem_cons.mp hp with hpk | hptl
      · subst hpk
        intro hkc
        simp only at hkc
        rw [hkc] at hq
        simp at hq
      · exact ih h3 p hptl

theorem resolveReplacement_some (pairs : List (String × String)) (x y : String)
    (h : pairs.lookup x = some y) (fuel : Nat) :
    resolveReplacement (fuel + 1) pairs x = resolveReplacement fuel pairs y := by
  simp [resolveReplacement, h]

theorem resolveReplacement_none (pairs : List (String × String)) (x : String)
    (h : pairs.lookup x = none) : ∀ fuel : Nat, resolveReplacement fuel pairs x = x := by
  intro fuel
  cases fuel with
  | zero => rfl
  | succ n => simp [resolveReplacement, h]

/-- C1: for every module, the stoichiometry matrix has one row per
variable species and one column per reaction: the row count is the
count of SpeciesVariable symbols, the column count is getNumReactions,
the row labels are the ordered variable species names, the column
labels are the ordered reaction names, and the built matrix has
exactly those dimensions. -/
theorem c1_stoichiometry_matrix_shape (m : Module) :
    getStoichiometryMatrixNumRows m = getNumSymbolsOfType m SymbolKind.SpeciesVariable ∧
    getStoichiometryMatrixNumColumns m = getNumReactions m ∧
    getStoichiometryMatrixRowLabels m = getSymbolNamesOfType m SymbolKind.SpeciesVariable ∧
    getStoichiometryMatrixColumnLabels m = getSymbolNamesOfType m SymbolKind.Reaction ∧
    (getStoichiometryMatrix m).length = getStoichiometryMatrixNumRows m ∧
    ((getStoichiometryMatrix m).all
      (fun row => row.length == getStoichiometryMatrixNumColumns m)) = true := by
  refine ⟨rfl, rfl, rfl, rfl, ?_, ?_⟩
  · simp [getStoichiometryMatrix, getStoichiometryMatrixNumRows, getNumSymbolsOfType]
  · simp [List.all_eq_true, getStoichiometryMatrix, getStoichiometryMatrixNumColumns,
      getNumReactions]

/-- C2: a symbol declared as a gene is reported by getTypeOfSymbol as
Gene (allGenes) and never as Reaction (allReactions), even though it
is matched by the allReactions query kind. -/
theorem c2_gene_reports_gene_not_reaction (m : Module) (symbolName : String) (s : Symbol)
    (hfind : m.symbols.find? (fun x => x.name == symbolName) = some s)
    (hgene : s.decl = SymbolDecl.Gene) :
    getTypeOfSymbol m symbolName = SymbolKind.Gene ∧
    getTypeOfSymbol m symbolName ≠ SymbolKind.Reaction ∧
    matchesKind SymbolKind.Reaction s = true := by
  have h : getTypeOfSymbol m symbolName = symbolKindOf s := by
    unfold getTypeOfSymbol
    rw [hfind]
  have h2 : symbolKindOf s = SymbolKind.Gene := by
    unfold symbolKindOf
    rw [hgene]
  refine ⟨by rw [h, h2], by rw [h, h2]; decide, by simp [matchesKind, hgene]⟩

/-- C2 witness: in the sample module the symbol g1 is declared a gene,
reports Gene, does not report Reaction, and is matched by the
allReactions kind. -/
theorem c2_witness :
    getTypeOfSymbol sampleModule "g1" = SymbolKind.Gene ∧
    getTypeOfSymbol sampleModule "g1" ≠ SymbolKind.Reaction ∧
    matchesKind SymbolKind.Reaction geneG1 = true :=
  c2_gene_reports_gene_not_reaction sampleModule "g1" geneG1 (by decide) (by decide)

/-- C10: addDefaultInitialValues returns true exactly when the named
module does not exist and false on success, the opposite of the
success-returns-true convention of revertTo and checkModule. -/
theorem c10_addDefaultInitialValues_inverted_convention
    (r : Registry) (moduleName : String) (index : Int) :
    (addDefaultInitialValues r moduleName).1 = !(checkModule r moduleName) ∧
    ((addDefaultInitialValues r moduleName).1 = true ↔ lookupModule r moduleName = none) ∧
    ((revertTo r index).1 = true ↔ (0 ≤ index ∧ index.toNat < r.files.length)) ∧
    (checkModule r moduleName = true ↔ (lookupModule r moduleName).isSome = true) := by
  refine ⟨?_, ?_, ?_, Iff.rfl⟩
  · unfold addDefaultInitialValues checkModule
    cases h : lookupModule r moduleName <;> simp [h]
  · unfold addDefaultInitialValues
    cases h : lookupModule r moduleName <;> simp [h]
  · unfold revertTo
    by_cases h : 0 ≤ index ∧ index.toNat < r.files.length
    · simp [h]
    · simp [h]

/-- C3 (amended): a query with a nullable result applied to a
nonexistent module sets the last error and returns an absent result,
while the boolean event-flag queries getPersistenceForEvent,
getT0ForEvent and getFromTriggerForEvent are unable to signal the
failure: on a nonexistent module or event ordinal they return their
documented defaults (false, true, true) and leave the registry, the
diagnostics sink included, untouched; no query aborts the caller. -/
theorem c3_missing_target_query_behavior (r : Registry) (moduleName : String)
    (m : Module) (event n : Nat) (t : SymbolKind) :
    (lookupModule r moduleName = none →
      getPersistenceForEvent r moduleName event = (false, r) ∧
      getT0ForEvent r moduleName event = (true, r) ∧
      getFromTriggerForEvent r moduleName event = (true, r) ∧
      (getNthSymbolEquationOfType r moduleName t n).1 = none ∧
      ((getNthSymbolEquationOfType r moduleName t n).2).lastError.isSome = true) ∧
    (lookupModule r moduleName = some m → m.events.length ≤ event →
      getPersistenceForEvent r moduleName event = (false, r) ∧
      getT0ForEvent r moduleName event = (true, r) ∧
      getFromTriggerForEvent r moduleName event = (true, r)) := by
  constructor
  · intro h
    unfold getPersistenceForEvent getT0ForEvent getFromTriggerForEvent
      getNthSymbolEquationOfType
    rw [h]
    simp [setError]
  · intro h hev
    have hget : m.events.get? event = none := List.get?_eq_none.mpr hev
    rw [List.get?_eq_getElem?] at hget
    unfold getPersistenceForEvent getT0ForEvent getFromTriggerForEvent
    rw [h]
    simp [hget]

/-- C3 counterexample: against the empty registry the three boolean
event-flag queries on a nonexistent module return definite default
values, not absent results, and leave the last error unset. -/
theorem c3_counterexample :
    (getPersistenceForEvent emptyRegistry "NoSuchModule" 0).1 = false ∧
    ((getPersistenceForEvent emptyRegistry "NoSuchModule" 0).2).lastError = none ∧
    (getT0ForEvent emptyRegistry "NoSuchModule" 0).1 = true ∧
    ((getT0ForEvent emptyRegistry "NoSuchModule" 0).2).lastError = none ∧
    (getFromTriggerForEvent emptyRegistry "NoSuchModule" 0).1 = true ∧
    ((getFromTriggerForEvent emptyRegistry "NoSuchModule" 0).2).lastError = none := by
  decide

/-- C3 witness: the amended behavior at a concrete registry. -/
theorem c3_witness :
    getPersistenceForEvent emptyRegistry "M" 0 = (false, emptyRegistry) ∧
    getT0ForEvent emptyRegistry "M" 0 = (true, emptyRegistry) ∧
    getFromTriggerForEvent emptyRegistry "M" 0 = (true, emptyRegistry) ∧
    (getNthSymbolEquationOfType emptyRegistry "M" SymbolKind.Any 0).1 = none ∧
    ((getNthSymbolEquationOfType emptyRegistry "M" SymbolKind.Any 0).2).lastError.isSome
      = true := by
  have h := (c3_missing_target_query_behavior emptyRegistry "M" sampleModule 0 0
    SymbolKind.Any).1 (by decide)
  exact h

/-- C4: for an existing symbol whose queried equation slot is unset,
the slot query returns an empty string with the registry unchanged,
and getNumReactants on an existing reaction with no reactants returns
0 with the registry unchanged; the same queries on a nonexistent
symbol or reaction ordinal return an absent result and 0 respectively
and set an error, so the two empty outcomes are distinguished exactly
by the error state. -/
theorem c4_empty_slot_vs_missing_symbol (r : Registry) (moduleName : String)
    (t : SymbolKind) (n rxn : Nat) (m : Module) (s : Symbol) :
    (lookupModule r moduleName = some m →
      (symbolsOfType m t).get? n = some s →
      symbolEquationText s = "" →
      getNthSymbolEquationOfType r moduleName t n = (some "", r)) ∧
    (lookupModule r moduleName = some m →
      (symbolsOfType m t).length ≤ n →
      (getNthSymbolEquationOfType r moduleName t n).1 = none ∧
      ((getNthSymbolEquationOfType r moduleName t n).2).lastError.isSome = true) ∧
    (lookupModule r moduleName = some m →
      (reactionsOf m).get? rxn = some s →
      s.reactants = [] →
      getNumReactants r moduleName rxn = (0, r)) ∧
    (lookupModule r moduleName = some m →
      (reactionsOf m).length ≤ rxn →
      (getNumReactants r moduleName rxn).1 = 0 ∧
      ((getNumReactants r moduleName rxn).2).lastError.isSome = true) := by
  refine ⟨?_, ?_, ?_, ?_⟩
  · intro h hget heq
    rw [List.get?_eq_getElem?] at hget
    unfold getNthSymbolEquationOfType
    rw [h]
    simp [hget, heq]
  · intro h hlen
    have hget : (symbolsOfType m t).get? n = none := List.get?_eq_none.mpr hlen
    rw [List.get?_eq_getElem?] at hget
    unfold getNthSymbolEquationOfType
    rw [h]
    simp [hget, setError]
  · intro h hget hre
    rw [List.get?_eq_getElem?] at hget
    unfold getNumReactants
    rw [h]
    simp [hget, hre]
  · intro h hlen
    have hget : (reactionsOf m).get? rxn = none := List.get?_eq_none.mpr hlen
    rw [List.get?_eq_getElem?] at hget
    unfold getNumReactants
    rw [h]
    simp [hget, setError]

/-- C4 witness: in the sample registry the species S1 has an unset
equation slot (empty string, no error), the reaction J0 has zero
reactants (0, no error), while an out-of-range symbol ordinal and an
out-of-range reaction ordinal set an error. -/
theorem c4_witness :
    getNthSymbolEquationOfType sampleRegistry "M" SymbolKind.Species 0
      = (some "", sampleRegistry) ∧
    getNumReactants sampleRegistry "M" 0 = (0, sampleRegistry) ∧
    (getNthSymbolEquationOfType sampleRegistry "M" SymbolKind.Event 0).1 = none ∧
    ((getNthSymbolEquationOfType sampleRegistry "M" SymbolKind.Event 0).2).lastError.isSome
      = true ∧
    (getNumReactants sampleRegistry "M" 5).1 = 0 ∧
    ((getNumReactants sampleRegistry "M" 5).2).lastError.isSome = true := by
  have h1 := (c4_empty_slot_vs_missing_symbol sampleRegistry "M" SymbolKind.Species 0 0
    sampleModule speciesS1).1 (by decide) (by decide) (by decide)
  have h2 := (c4_empty_slot_vs_missing_symbol sampleRegistry "M" SymbolKind.Species 0 0
    sampleModule reactionJ0).2.2.1 (by decide) (by decide) (by decide)
  have h3 := (c4_empty_slot_vs_missing_symbol sampleRegistry "M" SymbolKind.Event 0 5
    sampleModule speciesS1).2.1 (by decide) (by decide)
  have h4 := (c4_empty_slot_vs_missing_symbol sampleRegistry "M" SymbolKind.Event 0 5
    sampleModule speciesS1).2.2.2 (by decide) (by decide)
  exact ⟨h1, h2, h3.1, h3.2, h4.1, h4.2⟩

/-- C5: a failing load, untyped or typed, returns -1, registers no
document (getNumFiles and the document list are unchanged) and leaves
the previously active document active. -/
theorem c5_failed_load_stores_nothing
    (parseSBML parseAntimony parseCellML : String → Except String Document)
    (readFileContent : String → Except String String)
    (r : Registry) (model filename : String) (eS eA eC : String)
    (hS : parseSBML model = Except.error eS)
    (hA : parseAntimony model = Except.error eA)
    (hC : parseCellML model = Except.error eC)
    (hRead : readFileContent filename = Except.ok model) :
    (loadString parseSBML parseAntimony parseCellML r model).1 = -1 ∧
    ((loadString parseSBML parseAntimony parseCellML r model).2).files = r.files ∧
    ((loadString parseSBML parseAntimony parseCellML r model).2).active = r.active ∧
    getNumFiles ((loadString parseSBML parseAntimony parseCellML r model).2)
      = getNumFiles r ∧
    (loadAntimonyString parseAntimony r model).1 = -1 ∧
    ((loadAntimonyString parseAntimony r model).2).files = r.files ∧
    ((loadAntimonyString parseAntimony r model).2).active = r.active ∧
    (loadSBMLString parseSBML r model).1 = -1 ∧
    ((loadSBMLString parseSBML r model).2).files = r.files ∧
    ((loadSBMLString parseSBML r model).2).active = r.active ∧
    (loadCellMLString parseCellML r model).1 = -1 ∧
    ((loadCellMLString parseCellML r model).2).files = r.files ∧
    ((loadCellMLString parseCellML r model).2).active = r.active ∧
    (loadFile readFileContent parseSBML parseAntimony parseCellML r filename).1 = -1 ∧
    ((loadFile readFileContent parseSBML parseAntimony parseCellML r filename).2).files
      = r.files ∧
    ((loadFile readFileContent parseSBML parseAntimony parseCellML r filename).2).active
      = r.active := by
  simp [loadFile, loadString, loadAntimonyString, loadSBMLString, loadCellMLString,
    hS, hA, hC, hRead, setError, getNumFiles]

/-- C5 witness: loading a string on which every codec fails leaves the
empty registry without documents and returns -1. -/
theorem c5_witness :
    (loadString (fun _ => Except.error "sbml failure")
      (fun _ => Except.error "antimony failure")
      (fun _ => Except.error "cellml failure") emptyRegistry "junk").1 = -1 ∧
    ((loadString (fun _ => Except.error "sbml failure")
      (fun _ => Except.error "antimony failure")
      (fun _ => Except.error "cellml failure") emptyRegistry "junk").2).files
      = emptyRegistry.files ∧
    ((loadString (fun _ => Except.error "sbml failure")
      (fun _ => Except.error "antimony failure")
      (fun _ => Except.error "cellml failure") emptyRegistry "junk").2).active
      = emptyRegistry.active := by
  have h := c5_failed_load_stores_nothing
    (fun _ => Except.error "sbml failure")
    (fun _ => Except.error "antimony failure")
    (fun _ => Except.error "cellml failure")
    (fun _ => Except.ok "junk")
    emptyRegistry "junk" "junk" "sbml failure" "antimony failure" "cellml failure"
    rfl rfl rfl rfl
  exact ⟨h.1, h.2.1, h.2.2.1⟩

/-- C6: when every codec attempt of an untyped load fails, the stored
last error is the domain-text (Antimony) codec error, not the SBML or
CellML one. -/
theorem c6_failed_untyped_load_reports_antimony_error
    (parseSBML parseAntimony parseCellML : String → Except String Document)
    (readFileContent : String → Except String String)
    (r : Registry) (model filename : String) (eS eA eC : String)
    (hS : parseSBML model = Except.error eS)
    (hA : parseAntimony model = Except.error eA)
    (hC : parseCellML model = Except.error eC)
    (hRead : readFileContent filename = Except.ok model) :
    getLastError ((loadString parseSBML parseAntimony parseCellML r model).2) = some eA ∧
    getLastError
      ((loadFile readFileContent parseSBML parseAntimony parseCellML r filename).2)
      = some eA := by
  simp [loadFile, loadString, hS, hA, hC, hRead, setError, getLastError]

/-- C6 witness: with three distinct codec errors the reported message
is the antimony one and differs from the SBML and CellML messages. -/
theorem c6_witness :
    getLastError ((loadString (fun _ => Except.error "sbml failure")
      (fun _ => Except.error "antimony failure")
      (fun _ => Except.error "cellml failure") emptyRegistry "junk").2)
      = some "antimony failure" ∧
    (some "antimony failure" : Option String) ≠ some "sbml failure" ∧
    (some "antimony failure" : Option String) ≠ some "cellml failure" := by
  have h := c6_failed_untyped_load_reports_antimony_error
    (fun _ => Except.error "sbml failure")
    (fun _ => Except.error "antimony failure")
    (fun _ => Except.error "cellml failure")
    (fun _ => Except.ok "junk")
    emptyRegistry "junk" "junk" "sbml failure" "antimony failure" "cellml failure"
    rfl rfl rfl rfl
  exact ⟨h.1, by decide, by decide⟩

/-- C7: revertTo on a negative or unknown index returns false and has
no side effects (the registry, its document list and its active
document included, is unchanged), and on a valid index returns true
and switches the active document. -/
theorem c7_revertTo_contract (r : Registry) (index : Int) :
    ((index < 0 ∨ r.files.length ≤ index.toNat) → revertTo r index = (false, r)) ∧
    (0 ≤ index → index.toNat < r.files.length →
      revertTo r index = (true, { r with active := some index.toNat })) := by
  constructor
  · intro h
    unfold revertTo
    rw [if_neg]
    intro hcond
    rcases hcond with ⟨h1, h2⟩
    rcases h with hlt | hge
    · omega
    · omega
  · intro h1 h2
    unfold revertTo
    rw [if_pos ⟨h1, h2⟩]

/-- C7 witness: after one successful load, revertTo at index -1
returns false and leaves the loaded document active, while revertTo at
the valid index 0 returns true. -/
theorem c7_witness :
    revertTo loadedRegistry (-1) = (false, loadedRegistry) ∧
    loadedRegistry.active = some 0 ∧
    revertTo loadedRegistry 0 = (true, { loadedRegistry with active := some 0 }) := by
  refine ⟨(c7_revertTo_contract loadedRegistry (-1)).1 (Or.inl (by decide)),
    by decide,
    (c7_revertTo_contract loadedRegistry 0).2 (by decide) (by decide)⟩

/-- C8 (amended): for an existing symbol the equation classifier
returns Kinetic exactly for the symbols matched by the allReactions
kind (reactions and genes) and Trigger exactly for event symbols; a
symbol that is not a reaction, event, module or DNA element and
carries a rate rule classifies as Rate whether or not an initial
assignment is present; such a symbol with no equation in any slot
classifies as Initial; and a non-gene DNA element (an operator) always
classifies as Assignment. -/
theorem c8_equation_classification (m : Module) (symbolName : String) (s : Symbol)
    (hfind : m.symbols.find? (fun x => x.name == symbolName) = some s) :
    (getTypeOfEquationForSymbol m symbolName = FormulaKind.Kinetic ↔
      matchesKind SymbolKind.Reaction s = true) ∧
    (getTypeOfEquationForSymbol m symbolName = FormulaKind.Trigger ↔
      matchesKind SymbolKind.Event s = true) ∧
    (matchesKind SymbolKind.Reaction s = false → s.decl ≠ SymbolDecl.Event →
      s.decl ≠ SymbolDecl.ModuleDef → s.decl ≠ SymbolDecl.Operator →
      s.rateRule.isSome = true →
      getTypeOfEquationForSymbol m symbolName = FormulaKind.Rate) ∧
    (matchesKind SymbolKind.Reaction s = false → s.decl ≠ SymbolDecl.Event →
      s.decl ≠ SymbolDecl.Operator →
      s.initialAssignment = none → s.assignmentRule = none →
      s.rateRule = none → s.mainEquation = none →
      getTypeOfEquationForSymbol m symbolName = FormulaKind.Initial) ∧
    (s.decl = SymbolDecl.Operator →
      getTypeOfEquationForSymbol m symbolName = FormulaKind.Assignment) := by
  have heq : getTypeOfEquationForSymbol m symbolName = formulaKindOf s := by
    unfold getTypeOfEquationForSymbol
    rw [hfind]
  rw [heq]
  clear heq hfind
  refine ⟨?_, ?_, ?_, ?_, ?_⟩
  · cases hd : s.decl <;>
      by_cases hr : s.rateRule.isSome = true <;>
      by_cases ha : s.assignmentRule.isSome = true <;>
      simp [formulaKindOf, matchesKind, hd, hr, ha]
  · cases hd : s.decl <;>
      by_cases hr : s.rateRule.isSome = true <;>
      by_cases ha : s.assignmentRule.isSome = true <;>
      simp [formulaKindOf, matchesKind, hd, hr, ha]
  · intro hnr hne hnm hno hrr
    cases hd : s.decl <;> simp_all [formulaKindOf, matchesKind]
  · intro hnr hne hno hia har hrr hme
    cases hd : s.decl <;> simp_all [formulaKindOf, matchesKind]
  · intro hop
    simp [formulaKindOf, hop]

/-- C8 counterexample: in the operator module, op1 is an operator with
no equation in any slot yet classifies as Assignment, not Initial, and
op2 is an operator carrying a rate rule yet classifies as Assignment,
not Rate. -/
theorem c8_counterexample :
    getTypeOfEquationForSymbol opModule "op1" = FormulaKind.Assignment ∧
    getTypeOfEquationForSymbol opModule "op1" ≠ FormulaKind.Initial ∧
    operatorOp1.initialAssignment = none ∧ operatorOp1.assignmentRule = none ∧
    operatorOp1.rateRule = none ∧ operatorOp1.mainEquation = none ∧
    getTypeOfEquationForSymbol opModule "op2" = FormulaKind.Assignment ∧
    getTypeOfEquationForSymbol opModule "op2" ≠ FormulaKind.Rate ∧
    operatorOp2.rateRule = some "3" := by
  decide

/-- C8 witness: the classifier at the sample module: the reaction J0
is Kinetic, the gene g1 is Kinetic, and the plain species S1 with no
equations is Initial. -/
theorem c8_witness :
    getTypeOfEquationForSymbol sampleModule "S1" = FormulaKind.Initial := by
  have h := c8_equation_classification sampleModule "S1" speciesS1 (by decide)
  exact h.2.2.2.1 (by decide) (by decide) (by decide) (by decide) (by decide)
    (by decide) (by decide)

/-- C9: in a module whose replacement declarations contain the
identity chain A is B, B is C (with C itself replaced by nothing),
the exposed pairs are transitively canonicalized: the replacement
queried for the former symbol A is C directly, never B, and C does not
appear as the former symbol of any exposed pair. -/
theorem c9_replacement_chain_canonicalized (m : Module) (a b c : String)
    (hab : m.replacements.lookup a = some b)
    (hbc : m.replacements.lookup b = some c)
    (hc : m.replacements.lookup c = none) :
    getReplacementFor m a = some c ∧
    ∀ n x, getNthFormerSymbolName m n = some x → x ≠ c := by
  have hne : m.replacements ≠ [] := by
    intro hnil
    rw [hnil] at hab
    simp [List.lookup] at hab
  obtain ⟨k, hk⟩ : ∃ k, m.replacements.length = k + 1 := by
    cases hL : m.replacements with
    | nil => exact absurd hL hne
    | cons p tl => exact ⟨tl.length, by simp [hL]⟩
  constructor
  · unfold getReplacementFor replacementPairs
    rw [lookup_map_snd, hab]
    simp only [Option.map_some']
    rw [hk]
    rw [resolveReplacement_some m.replacements b c hbc (k + 1)]
    rw [resolveReplacement_none m.replacements c hc (k + 1)]
  · intro n x hx hxc
    unfold getNthFormerSymbolName at hx
    cases hg : (replacementPairs m.replacements).get? n with
    | none => rw [hg] at hx; simp at hx
    | some p =>
      rw [hg] at hx
      simp at hx
      have hmem : p ∈ replacementPairs m.replacements := List.get?_mem hg
      unfold replacementPairs at hmem
      rcases List.mem_map.mp hmem with ⟨q, hq, hqe⟩
      have hq1 : q.1 ≠ c := lookup_none_not_fst c m.replacements hc q hq
      have hqx : q.1 = x := by
        rw [← hqe] at hx
        exact hx
      exact hq1 (hqx.trans hxc)

/-- C9 witness: in the chain module with A is B and B is C, the
replacement exposed for A is C and neither exposed former symbol
is C. -/
theorem c9_witness :
    getReplacementFor chainModule "A" = some "C" ∧
    getNthFormerSymbolName chainModule 0 ≠ some "C" ∧
    getNthFormerSymbolName chainModule 1 ≠ some "C" := by
  have h := c9_replacement_chain_canonicalized chainModule "A" "B" "C"
    (by decide) (by decide) (by decide)
  exact ⟨h.1, fun hx => (h.2 0 "C" hx) rfl, fun hx => (h.2 1 "C" hx) rfl⟩

end Antimony
